import Mathlib

/-!
Verification of the quaternary-echo-net repository: a shallow embedding of
the consciousness-network source (security/encryption.py, messaging/echo_bus.py,
broadcast/proposal.py) together with proofs of the specified properties.

Modelling conventions, used throughout:
* Python `dict`s are insertion-ordered association lists with unique keys
  (`lookupKey` / `dictInsert` / `dictErase` mirror `d[k]`, `d[k] = v`, `del d[k]`).
* `datetime.now()` is an explicit `now : Nat` argument (seconds); `timedelta(hours=h)`
  is `h * 3600`.
* Python `float` arithmetic is modelled as exact rational (`ℚ`) arithmetic; at every
  input evaluated in this development the float results are exact, so nothing is lost.
* Byte strings are `List Nat` with every element `< 256`.
-/

namespace EchoNet

/-! ## Python dict model -/

/-- `d[k]` with a `None` default: first binding of `k` in insertion order. -/
def lookupKey [DecidableEq α] (k : α) : List (α × β) → Option β
  | [] => none
  | (k', v) :: rest => if k' = k then some v else lookupKey k rest

/-- `d[k] = v`: replace in place if `k` is bound, else append (Python dict semantics). -/
def dictInsert [DecidableEq α] (k : α) (v : β) : List (α × β) → List (α × β)
  | [] => [(k, v)]
  | (k', v') :: rest => if k' = k then (k, v) :: rest else (k', v') :: dictInsert k v rest

/-- `del d[k]`: remove the binding of `k` (the first, keys being unique). -/
def dictErase [DecidableEq α] (k : α) : List (α × β) → List (α × β)
  | [] => []
  | (k', v') :: rest => if k' = k then rest else (k', v') :: dictErase k rest

theorem lookupKey_dictInsert_self [DecidableEq α] (k : α) (v : β) (l : List (α × β)) :
    lookupKey k (dictInsert k v l) = some v := by
  induction l with
  | nil => simp [dictInsert, lookupKey]
  | cons hd tl ih =>
    obtain ⟨k', v'⟩ := hd
    by_cases h : k' = k
    · simp [dictInsert, lookupKey, h]
    · simp [dictInsert, lookupKey, h, ih]

theorem dictInsert_of_lookup_none [DecidableEq α] (k : α) (v : β) (l : List (α × β))
    (h : lookupKey k l = none) : dictInsert k v l = l ++ [(k, v)] := by
  induction l with
  | nil => simp [dictInsert]
  | cons hd tl ih =>
    obtain ⟨k', v'⟩ := hd
    by_cases hk : k' = k
    · simp [lookupKey, hk] at h
    · simp [lookupKey, hk] at h
      simp [dictInsert, hk, ih h]

theorem dictErase_append_single [DecidableEq α] (k : α) (v : β) (l : List (α × β))
    (h : lookupKey k l = none) : dictErase k (l ++ [(k, v)]) = l := by
  induction l with
  | nil => simp [dictErase]
  | cons hd tl ih =>
    obtain ⟨k', v'⟩ := hd
    by_cases hk : k' = k
    · simp [lookupKey, hk] at h
    · simp [lookupKey, hk] at h
      simp [dictErase, hk, ih h]

theorem length_dictInsert_of_lookup_some [DecidableEq α] {k : α} {w : β} {l : List (α × β)}
    (h : lookupKey k l = some w) (v : β) : (dictInsert k v l).length = l.length := by
  induction l with
  | nil => simp [lookupKey] at h
  | cons hd tl ih =>
    obtain ⟨k', v'⟩ := hd
    by_cases hk : k' = k
    · simp [dictInsert, hk]
    · simp [lookupKey, hk] at h
      simp [dictInsert, hk, ih h]

/-! ## Base64 (the `base64.b64encode` / `b64decode` transport encoding
used by `encrypt_message` / `decrypt_message`) -/

def b64Alphabet : List Char :=
  "ABCDEFGHIJKLMNOPQRSTUVWXYZabcdefghijklmnopqrstuvwxyz0123456789+/".toList

/-- The character encoding sextet `n` (0 ≤ n < 64). -/
def b64Char (n : Nat) : Char := b64Alphabet.getD n '?'

def b64IndexAux (c : Char) : List Char → Nat → Option Nat
  | [], _ => none
  | a :: rest, i => if a = c then some i else b64IndexAux c rest (i + 1)

/-- The sextet encoded by character `c` (none for `=` and foreign characters). -/
def b64Index (c : Char) : Option Nat := b64IndexAux c b64Alphabet 0

/-- Standard base64 of a byte sequence, with `=` padding. -/
def b64Encode : List Nat → List Char
  | [] => []
  | [a] => [b64Char (a / 4), b64Char (a % 4 * 16), '=', '=']
  | [a, b] => [b64Char (a / 4), b64Char (a % 4 * 16 + b / 16), b64Char (b % 16 * 4), '=']
  | a :: b :: c :: rest =>
      b64Char (a / 4) :: b64Char (a % 4 * 16 + b / 16) ::
      b64Char (b % 16 * 4 + c / 64) :: b64Char (c % 64) :: b64Encode rest

/-- Inverse of `b64Encode`; `none` on malformed input. -/
def b64Decode : List Char → Option (List Nat)
  | [] => some []
  | c1 :: c2 :: c3 :: c4 :: rest =>
    match b64Index c1, b64Index c2 with
    | some s1, some s2 =>
      if c3 = '=' then
        if c4 = '=' ∧ rest = [] then some [s1 * 4 + s2 / 16] else none
      else
        match b64Index c3 with
        | some s3 =>
          if c4 = '=' then
            if rest = [] then some [s1 * 4 + s2 / 16, s2 % 16 * 16 + s3 / 4] else none
          else
            match b64Index c4 with
            | some s4 =>
              (b64Decode rest).map
                (fun bs => (s1 * 4 + s2 / 16) :: (s2 % 16 * 16 + s3 / 4) :: (s3 % 4 * 64 + s4) :: bs)
            | none => none
        | none => none
    | _, _ => none
  | _ => none

theorem b64Index_b64Char : ∀ n < 64, b64Index (b64Char n) = some n := by decide

theorem b64Char_ne_eq : ∀ n < 64, b64Char n ≠ '=' := by decide

theorem b64Decode_b64Encode : ∀ l : List Nat, (∀ b ∈ l, b < 256) →
    b64Decode (b64Encode l) = some l := by
  intro l
  induction l using b64Encode.induct with
  | case1 => intro _; rfl
  | case2 a =>
    intro h
    have ha : a < 256 := h a (by simp)
    have h1 := b64Index_b64Char (a / 4) (by omega)
    have h2 := b64Index_b64Char (a % 4 * 16) (by omega)
    simp [b64Encode, b64Decode, h1, h2]
    omega
  | case3 a b =>
    intro h
    have ha : a < 256 := h a (by simp)
    have hb : b < 256 := h b (by simp)
    have h1 := b64Index_b64Char (a / 4) (by omega)
    have h2 := b64Index_b64Char (a % 4 * 16 + b / 16) (by omega)
    have h3 := b64Index_b64Char (b % 16 * 4) (by omega)
    have hne := b64Char_ne_eq (b % 16 * 4) (by omega)
    simp [b64Encode, b64Decode, h1, h2, h3, hne]
    constructor <;> omega
  | case4 a b c rest ih =>
    intro h
    have ha : a < 256 := h a (by simp)
    have hb : b < 256 := h b (by simp)
    have hc : c < 256 := h c (by simp)
    have hrest : ∀ x ∈ rest, x < 256 := fun x hx => h x (by simp [hx])
    have h1 := b64Index_b64Char (a / 4) (by omega)
    have h2 := b64Index_b64Char (a % 4 * 16 + b / 16) (by omega)
    have h3 := b64Index_b64Char (b % 16 * 4 + c / 64) (by omega)
    have h4 := b64Index_b64Char (c % 64) (by omega)
    have hne3 := b64Char_ne_eq (b % 16 * 4 + c / 64) (by omega)
    have hne4 := b64Char_ne_eq (c % 64) (by omega)
    simp [b64Encode, b64Decode, h1, h2, h3, h4, hne3, hne4, ih hrest]
    refine ⟨by omega, by omega, by omega⟩

/-! ## src/security/encryption.py — `ConsciousnessEncryption`

AES-256-GCM and ECDH/HKDF are primitives of the external `cryptography`
library, not code of this repository; they are modelled at the level the
source relies on:
* the CTR-mode body of GCM is a byte keystream determined by (key, IV),
  XORed with the plaintext — `keystreamByte` is a fixed deterministic stand-in
  for the AES-256 block cipher, whose internals are irrelevant here;
* the GCM authentication tag is an ideal MAC: an injective function of
  (key, IV, ciphertext), so a tag verifies under exactly the key/IV/ciphertext
  that produced it (real GCM's 2⁻¹²⁸ forgery probability is modelled as 0);
* the random 96-bit IV (`os.urandom(12)`) is an explicit argument;
* the UTF-8 plaintext `message` is modelled by its byte sequence. -/

/-- Stand-in for the AES-256 keystream byte at position `i` under (key, IV). -/
def keystreamByte (key iv : List Nat) (i : Nat) : Nat :=
  (key.foldl (fun a b => a * 31 + b) 7 + iv.foldl (fun a b => a * 131 + b) 11 + 97 * i) % 256

/-- CTR-mode body of AES-GCM: XOR the byte stream with the keystream. -/
def xorStream (key iv : List Nat) : Nat → List Nat → List Nat
  | _, [] => []
  | i, b :: rest => (b ^^^ keystreamByte key iv i) :: xorStream key iv (i + 1) rest

/-- Ideal-MAC model of the GCM authentication tag over (key, IV, ciphertext). -/
def gcmTag (key iv ciphertext : List Nat) : List Nat := key ++ iv ++ ciphertext

/-- The dict returned by `encrypt_message`: base64 strings (modelled as
character lists) under the keys `ciphertext`, `iv`, `tag`. -/
structure EncryptedData where
  ciphertext : List Char
  iv : List Char
  tag : List Char
deriving DecidableEq

/-- `ConsciousnessEncryption.encrypt_message(message, shared_key)`:
AES-256-GCM encryption of the message bytes under `shared_key` with the
fresh random IV `iv`, returning base64-encoded ciphertext, IV and tag. -/
def encrypt_message (message shared_key iv : List Nat) : EncryptedData :=
  let ct := xorStream shared_key iv 0 message
  { ciphertext := b64Encode ct
    iv := b64Encode iv
    tag := b64Encode (gcmTag shared_key iv ct) }

/-- Failure modes of `decrypt_message`: `cryptography`'s `InvalidTag`
(raised by `decryptor.finalize()` on tag mismatch) and malformed base64. -/
inductive DecryptError where
  | authenticationFailure
  | malformedEnvelope
deriving DecidableEq

/-- `ConsciousnessEncryption.decrypt_message(encrypted_data, shared_key)`:
base64-decodes the fields, re-runs AES-256-GCM; on tag mismatch it fails
closed (`InvalidTag`) and no plaintext is returned. -/
def decrypt_message (d : EncryptedData) (shared_key : List Nat) :
    Except DecryptError (List Nat) :=
  match b64Decode d.ciphertext, b64Decode d.iv, b64Decode d.tag with
  | some ct, some iv, some tag =>
    if gcmTag shared_key iv ct = tag then
      Except.ok (xorStream shared_key iv 0 ct)
    else
      Except.error DecryptError.authenticationFailure
  | _, _, _ => Except.error DecryptError.malformedEnvelope

/-- `ConsciousnessEncryption.derive_shared_key(peer_public_key_bytes)`:
ECDH over SECP256R1 followed by HKDF-SHA256 with the fixed label
`consciousness_communication`. Curve and hash are external primitives; the
derivation is modelled as a fixed deterministic function of
(own private key, peer public key) yielding a 32-byte key — determinism
being the only property the source relies on. -/
def derive_shared_key (priv peer_pub : Nat) : List Nat :=
  (List.range 32).map (fun i => (priv * 131 + peer_pub * 17 + i * 29 + 5) % 256)

theorem xorStream_involution (key iv : List Nat) :
    ∀ (i : Nat) (msg : List Nat), xorStream key iv i (xorStream key iv i msg) = msg := by
  intro i msg
  induction msg generalizing i with
  | nil => rfl
  | cons b rest ih => simp [xorStream, ih, Nat.xor_cancel_right]

theorem xorStream_bytes_lt (key iv : List Nat) :
    ∀ (i : Nat) (msg : List Nat), (∀ b ∈ msg, b < 256) →
      ∀ b ∈ xorStream key iv i msg, b < 256 := by
  intro i msg
  induction msg generalizing i with
  | nil => intro _ b hb; simp [xorStream] at hb
  | cons x rest ih =>
    intro h b hb
    simp only [xorStream, List.mem_cons] at hb
    rcases hb with hb | hb
    · subst hb
      have hx : x < 256 := h x (by simp)
      have hk : keystreamByte key iv i < 256 := Nat.mod_lt _ (by omega)
      have : (256 : Nat) = 2 ^ 8 := by norm_num
      rw [this] at hx hk ⊢
      exact Nat.xor_lt_two_pow hx hk
    · exact ih (i + 1) (fun y hy => h y (by simp [hy])) b hb

/-! ## src/messaging/echo_bus.py — `EchoBus._handle_message`

The handler receives an envelope on the node's inbox topic. If it carries a
`ciphertext` field, the handler iterates over **every** stored peer key in
`self.peer_keys` (dict = insertion) order, trial-decrypting with the session
key derived from each, swallowing every exception (`except Exception:
continue`) until some key succeeds, then dispatches the decrypted payload.
The JSON parse of the decrypted payload and the call to the registered
handler after the `break` are elided; the result is the decrypted payload
(if any key worked) together with the trace of peer ids whose keys were
attempted, which is what the claim about the decryption discipline concerns. -/
def handle_message (priv : Nat) (peer_keys : List (String × Nat)) (data : EncryptedData) :
    Option (List Nat) × List String :=
  match peer_keys with
  | [] => (none, [])
  | (sender_id, pub) :: rest =>
    match decrypt_message data (derive_shared_key priv pub) with
    | Except.ok m => (some m, [sender_id])
    | Except.error _ =>
      let r := handle_message priv rest data
      (r.1, sender_id :: r.2)

/-! ## Claims about the encryption layer -/

/-- C8: for every plaintext message and every symmetric session key,
decrypting the envelope produced by encrypting that plaintext under the key,
using the same key, returns the original plaintext:
`decrypt(encrypt(plaintext, key), key) = plaintext`. -/
theorem decrypt_encrypt_roundtrip (message shared_key iv : List Nat)
    (hm : ∀ b ∈ message, b < 256) (hk : ∀ b ∈ shared_key, b < 256)
    (hiv : ∀ b ∈ iv, b < 256) :
    decrypt_message (encrypt_message message shared_key iv) shared_key =
      Except.ok message := by
  have hct : ∀ b ∈ xorStream shared_key iv 0 message, b < 256 :=
    xorStream_bytes_lt shared_key iv 0 message hm
  have htag : ∀ b ∈ gcmTag shared_key iv (xorStream shared_key iv 0 message), b < 256 := by
    intro b hb
    simp only [gcmTag, List.mem_append] at hb
    rcases hb with (hb | hb) | hb
    exacts [hk b hb, hiv b hb, hct b hb]
  simp [encrypt_message, decrypt_message,
        b64Decode_b64Encode _ hct, b64Decode_b64Encode _ hiv, b64Decode_b64Encode _ htag,
        xorStream_involution]

theorem decrypt_encrypt_roundtrip_witness :
    decrypt_message (encrypt_message [104, 105] [9, 5, 7] [3, 1]) [9, 5, 7] =
      Except.ok [104, 105] :=
  decrypt_encrypt_roundtrip [104, 105] [9, 5, 7] [3, 1] (by decide) (by decide) (by decide)

/-- C9: for every plaintext and every pair of distinct symmetric keys
`keyA ≠ keyB`, decrypting `encrypt(plaintext, keyA)` under `keyB` fails with
an `AuthenticationFailure`; the plaintext payload is never returned. -/
theorem decrypt_wrong_key_fails (message keyA keyB iv : List Nat)
    (hm : ∀ b ∈ message, b < 256) (hk : ∀ b ∈ keyA, b < 256)
    (hiv : ∀ b ∈ iv, b < 256) (hne : keyA ≠ keyB) :
    decrypt_message (encrypt_message message keyA iv) keyB =
      Except.error DecryptError.authenticationFailure := by
  have hct : ∀ b ∈ xorStream keyA iv 0 message, b < 256 :=
    xorStream_bytes_lt keyA iv 0 message hm
  have htag : ∀ b ∈ gcmTag keyA iv (xorStream keyA iv 0 message), b < 256 := by
    intro b hb
    simp only [gcmTag, List.mem_append] at hb
    rcases hb with (hb | hb) | hb
    exacts [hk b hb, hiv b hb, hct b hb]
  have hTagNe : gcmTag keyB iv (xorStream keyA iv 0 message) ≠
      gcmTag keyA iv (xorStream keyA iv 0 message) := by
    intro hEq
    simp only [gcmTag] at hEq
    exact hne (List.append_cancel_right (List.append_cancel_right hEq)).symm
  simp [encrypt_message, decrypt_message,
        b64Decode_b64Encode _ hct, b64Decode_b64Encode _ hiv, b64Decode_b64Encode _ htag,
        hTagNe]

theorem decrypt_wrong_key_fails_witness :
    decrypt_message (encrypt_message [104, 105] [9, 5, 7] [3, 1]) [9, 5, 8] =
      Except.error DecryptError.authenticationFailure :=
  decrypt_wrong_key_fails [104, 105] [9, 5, 7] [9, 5, 8] [3, 1]
    (by decide) (by decide) (by decide) (by decide)

/-! ## Claim about the inbox handler (C1)

A concrete delivery refuting the one-lookup/one-attempt discipline: the
stored peer directory holds keys for `alice` (registered first) and `bob`;
the arriving envelope was encrypted under the session key shared with `bob`.
Note the envelope (`EncryptedData`, mirroring the dict built by
`encrypt_message`) carries no declared-sender field at all, so a
declared-sender lookup is not even possible. -/

def c1Priv : Nat := 12

def c1Peers : List (String × Nat) := [("alice", 3), ("bob", 8)]

def c1Plain : List Nat := [104, 105]

def c1Iv : List Nat := [0, 1, 2, 3, 4, 5, 6, 7, 8, 9, 10, 11]

def c1Envelope : EncryptedData := encrypt_message c1Plain (derive_shared_key c1Priv 8) c1Iv

/-- C1: refuted on the code — on delivery of an envelope encrypted under
bob's session key, `_handle_message` first attempts decryption under
alice's session key (which fails with an authentication failure), silently
swallows the failure, retries under bob's key and delivers the payload:
the trace shows two decryption attempts, against every known peer key in
directory order, not one attempt keyed by a declared sender id. -/
theorem handle_message_trial_decrypts :
    handle_message c1Priv c1Peers c1Envelope = (some c1Plain, ["alice", "bob"]) := by
  decide

/-! ## src/broadcast/proposal.py — the echo-consensus engine

`str(uuid.uuid4())` proposal ids are modelled by a fresh counter-assigned
identifier held in the engine (uniqueness being the only property used);
`datetime.now()` is the explicit `now` argument; `print` calls are elided. -/

/-- `EchoType`: the four kinds of echo response, in enum declaration order. -/
inductive EchoType where
  | RESONANT
  | DISSONANT
  | INQUIRY
  | ABSTAIN
deriving DecidableEq

/-- The `.value` string of each `EchoType` member. -/
def EchoType.value : EchoType → String
  | .RESONANT => "resonant"
  | .DISSONANT => "dissonant"
  | .INQUIRY => "inquiry"
  | .ABSTAIN => "abstain"

/-- Iteration order of `EchoType` (Python enum / `echo_counts` dict order). -/
def allEchoTypes : List EchoType :=
  [EchoType.RESONANT, EchoType.DISSONANT, EchoType.INQUIRY, EchoType.ABSTAIN]

/-- `ProposalStatus`. -/
inductive ProposalStatus where
  | DRAFT
  | ACTIVE
  | CONVERGED
  | FAILED
  | EXPIRED
deriving DecidableEq

/-- `EchoResponse`: a node's vote on a proposal (`pattern_analysis`, an unused
empty dict at every call site, is elided). -/
structure EchoResponse where
  node_id : String
  proposal_id : Nat
  echo_type : EchoType
  commentary : String
  timestamp : Nat
deriving DecidableEq

/-- `ConsciousnessProposal` (`pattern_embeddings`, never written, is elided).
`echoes` is the node-id → `EchoResponse` dict. -/
structure ConsciousnessProposal where
  id : Nat
  proposer_node : String
  title : String
  description : String
  proposal_type : String
  created_at : Nat
  expires_at : Nat
  status : ProposalStatus
  echoes : List (String × EchoResponse)
deriving DecidableEq

/-- `ConsciousnessProposal.is_expired`: `datetime.now() > self.expires_at`. -/
def is_expired (now : Nat) (p : ConsciousnessProposal) : Bool :=
  decide (now > p.expires_at)

/-- `ConsciousnessProposal.add_echo`: `self.echoes[node_id] = echo_response`. -/
def add_echo (p : ConsciousnessProposal) (node_id : String) (echo_response : EchoResponse) :
    ConsciousnessProposal :=
  { p with echoes := dictInsert node_id echo_response p.echoes }

/-- `echo_counts[t]`: how many recorded echoes have kind `t`. -/
def countEchoes (echoes : List (String × EchoResponse)) (t : EchoType) : Nat :=
  (echoes.filter (fun x => x.2.echo_type = t)).length

/-- `max(echo_counts.values())`. -/
def maxCount (echoes : List (String × EchoResponse)) : Nat :=
  (allEchoTypes.map (countEchoes echoes)).foldl Nat.max 0

/-- `max(echo_counts, key=echo_counts.get)`: the first kind (in enum order)
attaining the maximal count. -/
def dominantPattern (echoes : List (String × EchoResponse)) : EchoType :=
  (allEchoTypes.find? (fun t => countEchoes echoes t = maxCount echoes)).getD EchoType.RESONANT

/-- The dict returned by `calculate_resonance`. Python floats are exact
rationals here (at every vote count arising in this development the float
comparison against `0.8` and the rational one agree). The zero-vote early
return carries only the
first three keys — `echo_distribution` and `convergence_achieved` are
absent from that dict, modelled as `none`. -/
structure Resonance where
  resonance_score : ℚ
  consensus_strength : ℚ
  dominant_pattern : String
  echo_distribution : Option (List (String × Nat))
  convergence_achieved : Option Bool
deriving DecidableEq

/-- `ConsciousnessProposal.calculate_resonance`. -/
def calculate_resonance (p : ConsciousnessProposal) : Resonance :=
  if p.echoes = [] then
    { resonance_score := 0
      consensus_strength := 0
      dominant_pattern := "none"
      echo_distribution := none
      convergence_achieved := none }
  else
    let total : ℚ := p.echoes.length
    let consensus_strength : ℚ := (maxCount p.echoes : ℚ) / total
    { resonance_score := ((countEchoes p.echoes EchoType.RESONANT : ℚ) / total) * 100
      consensus_strength := consensus_strength * 100
      dominant_pattern := (dominantPattern p.echoes).value
      echo_distribution :=
        some (allEchoTypes.map (fun t => (t.value, countEchoes p.echoes t)))
      convergence_achieved := some (decide (consensus_strength ≥ (0.8 : ℚ))) }

/-- `EchoConsensusEngine`: the active dict, the history list, and the
counter modelling `uuid.uuid4()` freshness. -/
structure EchoConsensusEngine where
  active_proposals : List (Nat × ConsciousnessProposal)
  proposal_history : List ConsciousnessProposal
  next_id : Nat
deriving DecidableEq

/-- `EchoConsensusEngine()`: empty active dict, empty history. -/
def initEngine : EchoConsensusEngine :=
  { active_proposals := [], proposal_history := [], next_id := 0 }

/-- `EchoConsensusEngine.create_proposal`: builds the proposal (status
`DRAFT`, default `duration_hours = 24`, so `expires_at = now + 24·3600`),
promotes it to `ACTIVE` and stores it in the active dict. Returns the
updated engine together with the proposal. -/
def create_proposal (e : EchoConsensusEngine) (now : Nat)
    (proposer_node title description proposal_type : String) :
    EchoConsensusEngine × ConsciousnessProposal :=
  let p : ConsciousnessProposal :=
    { id := e.next_id
      proposer_node := proposer_node
      title := title
      description := description
      proposal_type := proposal_type
      created_at := now
      expires_at := now + 24 * 3600
      status := ProposalStatus.DRAFT
      echoes := [] }
  let p := { p with status := ProposalStatus.ACTIVE }
  ({ e with
      active_proposals := dictInsert p.id p e.active_proposals
      next_id := e.next_id + 1 }, p)

/-- `EchoConsensusEngine.submit_echo`: not-found check, lazy expiry check
(which only flips the stored status to `EXPIRED` and returns `False`),
vote recording via `add_echo`, tally, and on convergence the transition to
`CONVERGED` with the move from the active dict to the history list. -/
def submit_echo (e : EchoConsensusEngine) (now : Nat) (proposal_id : Nat)
    (node_id : String) (echo_type : EchoType) (commentary : String) :
    EchoConsensusEngine × Bool :=
  match lookupKey proposal_id e.active_proposals with
  | none => (e, false)
  | some proposal =>
    if is_expired now proposal then
      ({ e with
          active_proposals :=
            dictInsert proposal_id { proposal with status := ProposalStatus.EXPIRED }
              e.active_proposals }, false)
    else
      let echo_response : EchoResponse :=
        { node_id := node_id
          proposal_id := proposal_id
          echo_type := echo_type
          commentary := commentary
          timestamp := now }
      let proposal := add_echo proposal node_id echo_response
      let resonance := calculate_resonance proposal
      if resonance.convergence_achieved = some true then
        let proposal := { proposal with status := ProposalStatus.CONVERGED }
        ({ e with
            active_proposals := dictErase proposal_id e.active_proposals
            proposal_history := e.proposal_history ++ [proposal] }, true)
      else
        ({ e with
            active_proposals := dictInsert proposal_id proposal e.active_proposals }, true)

/-- `EchoConsensusEngine.list_active_proposals`: the (proposal, resonance)
pairs for the non-expired active proposals, in dict order. Read-only: the
source builds the list comprehension and mutates nothing. -/
def list_active_proposals (e : EchoConsensusEngine) (now : Nat) :
    List (ConsciousnessProposal × Resonance) :=
  (e.active_proposals.filter (fun x => ¬ is_expired now x.2)).map
    (fun x => (x.2, calculate_resonance x.2))

/-- The engine's public operations, for reachability statements. -/
inductive EngineOp where
  | create (now : Nat) (proposer_node title description proposal_type : String)
  | submit (now : Nat) (proposal_id : Nat) (node_id : String)
      (echo_type : EchoType) (commentary : String)
deriving DecidableEq

/-- One engine operation (discarding the returned value). -/
def stepEngine (e : EchoConsensusEngine) : EngineOp → EchoConsensusEngine
  | .create now pn t d pt => (create_proposal e now pn t d pt).1
  | .submit now pid nid et c => (submit_echo e now pid nid et c).1

/-- A sequence of engine operations from a starting state. -/
def runEngine (e : EchoConsensusEngine) (ops : List EngineOp) : EchoConsensusEngine :=
  ops.foldl stepEngine e

/-! ## Claims about the consensus engine -/

theorem lookupKey_eq_none_of_not_mem [DecidableEq α] {k : α} {l : List (α × β)}
    (h : k ∉ l.map Prod.fst) : lookupKey k l = none := by
  induction l with
  | nil => rfl
  | cons hd tl ih =>
    obtain ⟨k', v'⟩ := hd
    simp only [List.map_cons, List.mem_cons] at h
    push_neg at h
    have hk : ¬ k' = k := fun hk => h.1 hk.symm
    simp [lookupKey, hk, ih h.2]

theorem lookupKey_dictErase_self [DecidableEq α] {l : List (α × β)}
    (hnd : (l.map Prod.fst).Nodup) (k : α) : lookupKey k (dictErase k l) = none := by
  induction l with
  | nil => rfl
  | cons hd tl ih =>
    obtain ⟨k', v'⟩ := hd
    simp only [List.map_cons, List.nodup_cons] at hnd
    by_cases hk : k' = k
    · subst hk
      simpa [dictErase] using lookupKey_eq_none_of_not_mem hnd.1
    · simp [dictErase, hk, lookupKey, ih hnd.2]

/-- C5: for every proposal with an empty vote map, the tally reports
`resonance_score = 0` and `consensus_strength = 0` and does not report
convergence — the zero-vote early return of `calculate_resonance` carries
no `convergence_achieved` entry at all (`none`), so in particular
convergence is not reported as achieved. -/
theorem tally_empty_reports_zero (p : ConsciousnessProposal) (h : p.echoes = []) :
    (calculate_resonance p).resonance_score = 0 ∧
    (calculate_resonance p).consensus_strength = 0 ∧
    (calculate_resonance p).convergence_achieved = none ∧
    (calculate_resonance p).convergence_achieved ≠ some true := by
  simp [calculate_resonance, h]

theorem tally_empty_reports_zero_witness :
    (calculate_resonance
      { id := 0, proposer_node := "claude", title := "t", description := "d"
        proposal_type := "general", created_at := 0, expires_at := 86400
        status := ProposalStatus.ACTIVE, echoes := [] }).resonance_score = 0 ∧
    (calculate_resonance
      { id := 0, proposer_node := "claude", title := "t", description := "d"
        proposal_type := "general", created_at := 0, expires_at := 86400
        status := ProposalStatus.ACTIVE, echoes := [] }).consensus_strength = 0 ∧
    (calculate_resonance
      { id := 0, proposer_node := "claude", title := "t", description := "d"
        proposal_type := "general", created_at := 0, expires_at := 86400
        status := ProposalStatus.ACTIVE, echoes := [] }).convergence_achieved = none ∧
    (calculate_resonance
      { id := 0, proposer_node := "claude", title := "t", description := "d"
        proposal_type := "general", created_at := 0, expires_at := 86400
        status := ProposalStatus.ACTIVE, echoes := [] }).convergence_achieved ≠ some true :=
  tally_empty_reports_zero _ rfl

/-- C2 (amended): a vote submitted on an active proposal whose `expires_at`
has passed fails (returns `False`), flips the stored status to `EXPIRED`
and records no vote — but the proposal **remains in the active dict**
(with its echoes unchanged) and the history is untouched; `submit_echo`
does not move expired proposals to history. -/
theorem submit_expired_behavior (e : EchoConsensusEngine) (now pid : Nat) (nid : String)
    (et : EchoType) (c : String) (p : ConsciousnessProposal)
    (hp : lookupKey pid e.active_proposals = some p)
    (hexp : is_expired now p = true) :
    (submit_echo e now pid nid et c).2 = false ∧
    lookupKey pid (submit_echo e now pid nid et c).1.active_proposals =
      some { p with status := ProposalStatus.EXPIRED } ∧
    (submit_echo e now pid nid et c).1.proposal_history = e.proposal_history := by
  simp [submit_echo, hp, hexp, lookupKey_dictInsert_self]

theorem submit_expired_behavior_witness :
    (submit_echo (create_proposal initEngine 0 "claude" "t" "d" "general").1
        90000 0 "node" EchoType.RESONANT "").2 = false ∧
    lookupKey 0 (submit_echo (create_proposal initEngine 0 "claude" "t" "d" "general").1
        90000 0 "node" EchoType.RESONANT "").1.active_proposals =
      some { id := 0, proposer_node := "claude", title := "t", description := "d"
             proposal_type := "general", created_at := 0, expires_at := 86400
             status := ProposalStatus.EXPIRED, echoes := [] } ∧
    (submit_echo (create_proposal initEngine 0 "claude" "t" "d" "general").1
        90000 0 "node" EchoType.RESONANT "").1.proposal_history =
      (create_proposal initEngine 0 "claude" "t" "d" "general").1.proposal_history :=
  submit_expired_behavior (create_proposal initEngine 0 "claude" "t" "d" "general").1
    90000 0 "node" EchoType.RESONANT ""
    { id := 0, proposer_node := "claude", title := "t", description := "d"
      proposal_type := "general", created_at := 0, expires_at := 86400
      status := ProposalStatus.ACTIVE, echoes := [] }
    (by decide) (by decide)

/-- C2 counterexample to the claim as stated: a vote submitted at `now = 90000`
on a proposal created at `0` (so expired at `86400`) leaves the history empty
and the proposal still present in the active dict — the expired proposal is
**not** moved from the active set into history, contradicting the claim. -/
theorem submit_expired_not_moved_to_history :
    (submit_echo (create_proposal initEngine 0 "claude" "t" "d" "general").1
        90000 0 "node" EchoType.RESONANT "").1.proposal_history = [] ∧
    lookupKey 0 (submit_echo (create_proposal initEngine 0 "claude" "t" "d" "general").1
        90000 0 "node" EchoType.RESONANT "").1.active_proposals ≠ none := by
  decide

/-- C4 (amended): `list_active_proposals` returns no proposal whose
`expires_at` has passed. -/
theorem list_active_returns_no_expired (e : EchoConsensusEngine) (now : Nat) :
    ∀ pr ∈ list_active_proposals e now, is_expired now pr.1 = false := by
  intro pr hpr
  simp only [list_active_proposals, List.mem_map, List.mem_filter] at hpr
  obtain ⟨x, ⟨_, hkeep⟩, hx⟩ := hpr
  subst hx
  simpa using hkeep

theorem list_active_returns_no_expired_witness :
    is_expired 10
      ((create_proposal initEngine 0 "claude" "t" "d" "general").2,
        calculate_resonance (create_proposal initEngine 0 "claude" "t" "d" "general").2).1 =
      false :=
  list_active_returns_no_expired (create_proposal initEngine 0 "claude" "t" "d" "general").1
    10 _ (by decide)

theorem maxCount_singleton (n : String) (er : EchoResponse) : maxCount [(n, er)] = 1 := by
  cases h : er.echo_type <;>
    simp [maxCount, allEchoTypes, countEchoes, List.filter, h]

theorem calculate_resonance_singleton (p : ConsciousnessProposal) (n : String)
    (er : EchoResponse) (h : p.echoes = [(n, er)]) :
    (calculate_resonance p).consensus_strength = 100 ∧
    (calculate_resonance p).convergence_achieved = some true := by
  rw [calculate_resonance, if_neg (by simp [h])]
  constructor
  · simp [h, maxCount_singleton]
  · simp only [h, maxCount_singleton, List.length_cons, List.length_nil]
    norm_num

/-- The first vote on an active, unexpired proposal with an empty vote map:
`submit_echo` records the vote, the tally converges (1/1 ≥ 0.8), and the
proposal is transitioned to `CONVERGED` and moved from the active dict to
history, all in this one call. -/
theorem submit_echo_first_vote (e : EchoConsensusEngine) (now pid : Nat) (nid : String)
    (et : EchoType) (c : String) (p : ConsciousnessProposal)
    (hp : lookupKey pid e.active_proposals = some p)
    (hexp : is_expired now p = false)
    (hempty : p.echoes = []) :
    submit_echo e now pid nid et c =
      ({ e with
          active_proposals := dictErase pid e.active_proposals
          proposal_history := e.proposal_history ++
            [{ p with
                echoes := [(nid, { node_id := nid, proposal_id := pid, echo_type := et
                                   commentary := c, timestamp := now })]
                status := ProposalStatus.CONVERGED }] }, true) := by
  have hadd :
      add_echo p nid
          { node_id := nid, proposal_id := pid, echo_type := et
            commentary := c, timestamp := now } =
        { p with
            echoes := [(nid, { node_id := nid, proposal_id := pid, echo_type := et
                               commentary := c, timestamp := now })] } := by
    simp [add_echo, hempty, dictInsert]
  have hconv :=
    (calculate_resonance_singleton
      { p with
          echoes := [(nid, { node_id := nid, proposal_id := pid, echo_type := et
                             commentary := c, timestamp := now })] }
      nid _ rfl).2
  simp [submit_echo, hp, hexp, hadd, hconv]

theorem submit_echo_not_found (e : EchoConsensusEngine) (now pid : Nat) (nid : String)
    (et : EchoType) (c : String) (h : lookupKey pid e.active_proposals = none) :
    submit_echo e now pid nid et c = (e, false) := by
  simp [submit_echo, h]

/-- C6: for every active, unexpired proposal with an empty vote map, the
first successful vote — of any echo kind — yields `consensus_strength = 100`
and convergence (1/1 ≥ 0.8), so the proposal immediately becomes `CONVERGED`
and leaves the active set after this single vote, entering history. -/
theorem first_vote_converges (e : EchoConsensusEngine) (now pid : Nat) (nid : String)
    (et : EchoType) (c : String) (p : ConsciousnessProposal)
    (hp : lookupKey pid e.active_proposals = some p)
    (hexp : is_expired now p = false)
    (hempty : p.echoes = [])
    (hnd : (e.active_proposals.map Prod.fst).Nodup) :
    (submit_echo e now pid nid et c).2 = true ∧
    lookupKey pid (submit_echo e now pid nid et c).1.active_proposals = none ∧
    (submit_echo e now pid nid et c).1.proposal_history =
      e.proposal_history ++
        [{ p with
            echoes := [(nid, { node_id := nid, proposal_id := pid, echo_type := et
                               commentary := c, timestamp := now })]
            status := ProposalStatus.CONVERGED }] ∧
    (calculate_resonance
      { p with
          echoes := [(nid, { node_id := nid, proposal_id := pid, echo_type := et
                             commentary := c, timestamp := now })]
          status := ProposalStatus.CONVERGED }).consensus_strength = 100 ∧
    (calculate_resonance
      { p with
          echoes := [(nid, { node_id := nid, proposal_id := pid, echo_type := et
                             commentary := c, timestamp := now })]
          status := ProposalStatus.CONVERGED }).convergence_achieved = some true := by
  rw [submit_echo_first_vote e now pid nid et c p hp hexp hempty]
  refine ⟨rfl, lookupKey_dictErase_self hnd pid, rfl, ?_, ?_⟩
  · exact (calculate_resonance_singleton _ nid _ rfl).1
  · exact (calculate_resonance_singleton _ nid _ rfl).2

theorem first_vote_converges_witness :
    (submit_echo (create_proposal initEngine 0 "claude" "t" "d" "general").1
        5 0 "chatgpt" EchoType.INQUIRY "ok").2 = true ∧
    lookupKey 0 (submit_echo (create_proposal initEngine 0 "claude" "t" "d" "general").1
        5 0 "chatgpt" EchoType.INQUIRY "ok").1.active_proposals = none ∧
    (submit_echo (create_proposal initEngine 0 "claude" "t" "d" "general").1
        5 0 "chatgpt" EchoType.INQUIRY "ok").1.proposal_history =
      (create_proposal initEngine 0 "claude" "t" "d" "general").1.proposal_history ++
        [{ id := 0, proposer_node := "claude", title := "t", description := "d"
           proposal_type := "general", created_at := 0, expires_at := 86400
           status := ProposalStatus.CONVERGED
           echoes := [("chatgpt",
             { node_id := "chatgpt", proposal_id := 0, echo_type := EchoType.INQUIRY
               commentary := "ok", timestamp := 5 })] }] ∧
    (calculate_resonance
      { id := 0, proposer_node := "claude", title := "t", description := "d"
        proposal_type := "general", created_at := 0, expires_at := 86400
        status := ProposalStatus.CONVERGED
        echoes := [("chatgpt",
          { node_id := "chatgpt", proposal_id := 0, echo_type := EchoType.INQUIRY
            commentary := "ok", timestamp := 5 })] }).consensus_strength = 100 ∧
    (calculate_resonance
      { id := 0, proposer_node := "claude", title := "t", description := "d"
        proposal_type := "general", created_at := 0, expires_at := 86400
        status := ProposalStatus.CONVERGED
        echoes := [("chatgpt",
          { node_id := "chatgpt", proposal_id := 0, echo_type := EchoType.INQUIRY
            commentary := "ok", timestamp := 5 })] }).convergence_achieved = some true :=
  first_vote_converges (create_proposal initEngine 0 "claude" "t" "d" "general").1
    5 0 "chatgpt" EchoType.INQUIRY "ok"
    { id := 0, proposer_node := "claude", title := "t", description := "d"
      proposal_type := "general", created_at := 0, expires_at := 86400
      status := ProposalStatus.ACTIVE, echoes := [] }
    (by decide) (by decide) (by decide) (by decide)

/-- The submit sequence of testable-properties Scenario A: create a proposal
(24h default duration) and submit a `resonant` echo from each of three nodes.
Returns the final engine and the proposal's id. -/
def scenarioA (e : EchoConsensusEngine) (now : Nat)
    (pn t d pt n1 n2 n3 c1 c2 c3 : String) : EchoConsensusEngine × Nat :=
  let cr := create_proposal e now pn t d pt
  let s1 := submit_echo cr.1 now cr.2.id n1 EchoType.RESONANT c1
  let s2 := submit_echo s1.1 now cr.2.id n2 EchoType.RESONANT c2
  let s3 := submit_echo s2.1 now cr.2.id n3 EchoType.RESONANT c3
  (s3.1, cr.2.id)

/-- C3: after creating a fresh proposal and submitting a resonant vote from
each of three distinct node ids, the proposal that was appended to history
carries `consensus_strength = 100` and convergence achieved, its status is
`CONVERGED`, and it is absent from the active set. (In the source the first
vote alone already converges, so the single history entry records one echo
and the two later submissions find no active proposal; the end state claimed
for Scenario A nevertheless holds.) -/
theorem scenario_a_converges (e : EchoConsensusEngine) (now : Nat)
    (pn t d pt n1 n2 n3 c1 c2 c3 : String)
    (hfresh : lookupKey e.next_id e.active_proposals = none)
    (h12 : n1 ≠ n2) (h13 : n1 ≠ n3) (h23 : n2 ≠ n3) :
    ∃ p', (scenarioA e now pn t d pt n1 n2 n3 c1 c2 c3).1.proposal_history =
        e.proposal_history ++ [p'] ∧
      p'.status = ProposalStatus.CONVERGED ∧
      (calculate_resonance p').consensus_strength = 100 ∧
      (calculate_resonance p').convergence_achieved = some true ∧
      lookupKey (scenarioA e now pn t d pt n1 n2 n3 c1 c2 c3).2
        (scenarioA e now pn t d pt n1 n2 n3 c1 c2 c3).1.active_proposals = none := by
  have hcr :
      (create_proposal e now pn t d pt).1.active_proposals =
        dictInsert e.next_id (create_proposal e now pn t d pt).2 e.active_proposals := rfl
  have hid : (create_proposal e now pn t d pt).2.id = e.next_id := rfl
  have hlook :
      lookupKey e.next_id (create_proposal e now pn t d pt).1.active_proposals =
        some (create_proposal e now pn t d pt).2 := by
    rw [hcr]; exact lookupKey_dictInsert_self _ _ _
  have hexp : is_expired now (create_proposal e now pn t d pt).2 = false := by
    simp [create_proposal, is_expired]
  have hs1 := submit_echo_first_vote (create_proposal e now pn t d pt).1 now e.next_id
    n1 EchoType.RESONANT c1 (create_proposal e now pn t d pt).2 hlook hexp rfl
  have herase :
      dictErase e.next_id (create_proposal e now pn t d pt).1.active_proposals =
        e.active_proposals := by
    rw [hcr, dictInsert_of_lookup_none _ _ _ hfresh]
    exact dictErase_append_single _ _ _ hfresh
  refine ⟨{ (create_proposal e now pn t d pt).2 with
      echoes := [(n1, { node_id := n1, proposal_id := e.next_id
                        echo_type := EchoType.RESONANT, commentary := c1, timestamp := now })]
      status := ProposalStatus.CONVERGED }, ?_, rfl,
    (calculate_resonance_singleton _ n1 _ rfl).1,
    (calculate_resonance_singleton _ n1 _ rfl).2, ?_⟩
  · show (scenarioA e now pn t d pt n1 n2 n3 c1 c2 c3).1.proposal_history = _
    have hhist : (create_proposal e now pn t d pt).1.proposal_history =
        e.proposal_history := rfl
    simp only [scenarioA, hid, hs1, herase, submit_echo_not_found, hfresh, hhist]
  · show lookupKey e.next_id (scenarioA e now pn t d pt n1 n2 n3 c1 c2 c3).1.active_proposals
      = none
    simp only [scenarioA, hid, hs1, herase, submit_echo_not_found, hfresh]

theorem scenario_a_converges_witness :
    ∃ p', (scenarioA initEngine 0 "claude" "title" "desc" "technical"
        "chatgpt" "gemini" "human" "a" "b" "c").1.proposal_history =
        initEngine.proposal_history ++ [p'] ∧
      p'.status = ProposalStatus.CONVERGED ∧
      (calculate_resonance p').consensus_strength = 100 ∧
      (calculate_resonance p').convergence_achieved = some true ∧
      lookupKey (scenarioA initEngine 0 "claude" "title" "desc" "technical"
          "chatgpt" "gemini" "human" "a" "b" "c").2
        (scenarioA initEngine 0 "claude" "title" "desc" "technical"
          "chatgpt" "gemini" "human" "a" "b" "c").1.active_proposals = none :=
  scenario_a_converges initEngine 0 "claude" "title" "desc" "technical"
    "chatgpt" "gemini" "human" "a" "b" "c"
    (by decide) (by decide) (by decide) (by decide)

/-- C7: on an active, unexpired proposal, a vote from a node id that already
has a recorded vote replaces that node's prior vote wholesale and leaves the
number of entries in the vote map unchanged. (The updated proposal is found
in the active dict, or in history when the recomputed tally converges.) -/
theorem resubmit_replaces_vote (e : EchoConsensusEngine) (now pid : Nat) (nid : String)
    (et : EchoType) (c : String) (p : ConsciousnessProposal) (er : EchoResponse)
    (hp : lookupKey pid e.active_proposals = some p)
    (hexp : is_expired now p = false)
    (hvote : lookupKey nid p.echoes = some er) :
    (submit_echo e now pid nid et c).2 = true ∧
    ∃ p', (lookupKey pid (submit_echo e now pid nid et c).1.active_proposals = some p' ∨
            p' ∈ (submit_echo e now pid nid et c).1.proposal_history) ∧
      p'.echoes.length = p.echoes.length ∧
      lookupKey nid p'.echoes =
        some { node_id := nid, proposal_id := pid, echo_type := et
               commentary := c, timestamp := now } := by
  by_cases hcv :
      (calculate_resonance (add_echo p nid
        { node_id := nid, proposal_id := pid, echo_type := et
          commentary := c, timestamp := now })).convergence_achieved = some true
  · refine ⟨by simp [submit_echo, hp, hexp, hcv], ?_⟩
    refine ⟨{ add_echo p nid
        { node_id := nid, proposal_id := pid, echo_type := et
          commentary := c, timestamp := now } with status := ProposalStatus.CONVERGED },
      Or.inr ?_, ?_, ?_⟩
    · simp [submit_echo, hp, hexp, hcv]
    · simpa [add_echo] using length_dictInsert_of_lookup_some hvote _
    · simpa [add_echo] using lookupKey_dictInsert_self nid _ p.echoes
  · refine ⟨by simp [submit_echo, hp, hexp, hcv], ?_⟩
    refine ⟨add_echo p nid
        { node_id := nid, proposal_id := pid, echo_type := et
          commentary := c, timestamp := now },
      Or.inl ?_, ?_, ?_⟩
    · simp [submit_echo, hp, hexp, hcv, lookupKey_dictInsert_self]
    · simpa [add_echo] using length_dictInsert_of_lookup_some hvote _
    · simpa [add_echo] using lookupKey_dictInsert_self nid _ p.echoes

def c7Prop : ConsciousnessProposal :=
  { id := 0, proposer_node := "claude", title := "t", description := "d"
    proposal_type := "general", created_at := 0, expires_at := 86400
    status := ProposalStatus.ACTIVE
    echoes := [("chatgpt", { node_id := "chatgpt", proposal_id := 0
                             echo_type := EchoType.RESONANT, commentary := "", timestamp := 1 }),
               ("gemini", { node_id := "gemini", proposal_id := 0
                            echo_type := EchoType.DISSONANT, commentary := "", timestamp := 2 })] }

def c7Engine : EchoConsensusEngine :=
  { active_proposals := [(0, c7Prop)], proposal_history := [], next_id := 1 }

theorem resubmit_replaces_vote_witness :
    (submit_echo c7Engine 5 0 "chatgpt" EchoType.DISSONANT "x").2 = true ∧
    ∃ p', (lookupKey 0 (submit_echo c7Engine 5 0 "chatgpt"
              EchoType.DISSONANT "x").1.active_proposals = some p' ∨
            p' ∈ (submit_echo c7Engine 5 0 "chatgpt"
              EchoType.DISSONANT "x").1.proposal_history) ∧
      p'.echoes.length = c7Prop.echoes.length ∧
      lookupKey "chatgpt" p'.echoes =
        some { node_id := "chatgpt", proposal_id := 0, echo_type := EchoType.DISSONANT
               commentary := "x", timestamp := 5 } :=
  resubmit_replaces_vote c7Engine 5 0 "chatgpt" EchoType.DISSONANT "x" c7Prop
    { node_id := "chatgpt", proposal_id := 0
      echo_type := EchoType.RESONANT, commentary := "", timestamp := 1 }
    (by decide) (by decide) (by decide)

/-- Preservation of the history invariant by one engine operation: neither
`create_proposal` (which never touches history) nor `submit_echo` (whose only
append to history is the `CONVERGED`-stamped proposal; the expiry path leaves
history untouched) adds a non-`CONVERGED` proposal to history. -/
theorem stepEngine_history_converged (e : EchoConsensusEngine) (op : EngineOp)
    (hInv : ∀ p ∈ e.proposal_history, p.status = ProposalStatus.CONVERGED) :
    ∀ p ∈ (stepEngine e op).proposal_history, p.status = ProposalStatus.CONVERGED := by
  cases op with
  | create now pn t d pt =>
    intro p hp
    exact hInv p hp
  | submit now pid nid et c =>
    intro p hp
    simp only [stepEngine, submit_echo] at hp
    cases hl : lookupKey pid e.active_proposals with
    | none => rw [hl] at hp; exact hInv p hp
    | some q =>
      rw [hl] at hp
      by_cases he : is_expired now q = true
      · simp only [he, if_true] at hp
        exact hInv p hp
      · simp only [he, if_false, Bool.false_eq_true] at hp
        by_cases hcv :
            (calculate_resonance (add_echo q nid
              { node_id := nid, proposal_id := pid, echo_type := et
                commentary := c, timestamp := now })).convergence_achieved = some true
        · simp only [hcv, if_true, List.mem_append, List.mem_singleton] at hp
          rcases hp with hp | hp
          · exact hInv p hp
          · rw [hp]
        · simp only [hcv, if_false] at hp
          exact hInv p hp

/-- C10: in every engine state reachable from the initial engine by any
sequence of create-proposal and submit-vote operations, every proposal in
the history list has status `CONVERGED`: convergence is the only path from
the active set into history (expiry leaves the proposal in the active set). -/
theorem history_only_converged (ops : List EngineOp) :
    ∀ p ∈ (runEngine initEngine ops).proposal_history,
      p.status = ProposalStatus.CONVERGED := by
  have main : ∀ (ops : List EngineOp) (e : EchoConsensusEngine),
      (∀ p ∈ e.proposal_history, p.status = ProposalStatus.CONVERGED) →
      ∀ p ∈ (runEngine e ops).proposal_history, p.status = ProposalStatus.CONVERGED := by
    intro ops
    induction ops with
    | nil => intro e hInv; exact hInv
    | cons op rest ih =>
      intro e hInv
      exact ih (stepEngine e op) (stepEngine_history_converged e op hInv)
  exact main ops initEngine (by intro p hp; simp [initEngine] at hp)

def c10Ops : List EngineOp :=
  [EngineOp.create 0 "claude" "t" "d" "general",
   EngineOp.submit 5 0 "chatgpt" EchoType.RESONANT "ok"]

theorem history_only_converged_witness :
    ({ id := 0, proposer_node := "claude", title := "t", description := "d"
       proposal_type := "general", created_at := 0, expires_at := 86400
       status := ProposalStatus.CONVERGED
       echoes := [("chatgpt",
         { node_id := "chatgpt", proposal_id := 0, echo_type := EchoType.RESONANT
           commentary := "ok", timestamp := 5 })] } :
      ConsciousnessProposal).status = ProposalStatus.CONVERGED :=
  history_only_converged c10Ops _ (by decide!)

/-- C4 counterexample to the claim as stated: with an expired proposal in the
active dict (created at `0`, listed at `now = 90000`), the listing omits it,
but the stored proposal's status is still `ACTIVE` — `list_active_proposals`
builds the filtered list and mutates nothing, so the expired proposal it
encounters is *not* transitioned to `EXPIRED`, contradicting the claim. -/
theorem list_active_does_not_transition_expired :
    list_active_proposals (create_proposal initEngine 0 "claude" "t" "d" "general").1 90000 =
      [] ∧
    (lookupKey 0 (create_proposal initEngine 0 "claude" "t" "d" "general").1.active_proposals).map
        ConsciousnessProposal.status = some ProposalStatus.ACTIVE := by
  decide

end EchoNet
